import Mathlib

/-!
# spatialvault — Multi-Tenant Spatial Resource & Query Engine: verification

Shallow embedding of the core subsystem of the `spatialvault` repository:

* the identifier validator and quoting helpers (`src/auth/role_manager.rs`),
* the CQL2 → PostGIS filter compiler (`src/api/features/query.rs`),
* the collection resource catalog with optimistic concurrency, rename
  aliasing, and sharing (`src/services/collection_service.rs` and the
  HTTP handlers in `src/api/collections/`).

Rust `String` values are modelled by Lean `String`; the handful of Rust
standard-library string operations used by the code (`to_lowercase`,
`split`, `join`, `contains`, `replace`, `starts_with`, byte `len`) are
reimplemented here over `String.data` so that they mirror the Rust
semantics on the ASCII inputs this code manipulates and evaluate inside
the kernel.

Database interaction is modelled by explicit state passing: a `DbState`
carries the catalog rows, alias records, physical tables, native roles,
grants and role-membership edges; each service method becomes a function
`DbState → ... → Except AppError (DbState × ...)`.  Returning an error
models the enclosing transaction aborting, so the caller keeps the
unchanged input state.
-/

namespace SpatialVault

/-! ## Rust string primitives -/

/-- Number of bytes of the UTF-8 encoding of one character (Rust `char::len_utf8`). -/
def utf8CharLen (c : Char) : Nat :=
  if c.toNat < 0x80 then 1
  else if c.toNat < 0x800 then 2
  else if c.toNat < 0x10000 then 3
  else 4

/-- Rust `str::len`: length in UTF-8 bytes. -/
def rustByteLen (s : String) : Nat := (s.data.map utf8CharLen).sum

/-- Rust `str::to_lowercase` restricted to its ASCII behaviour (all operator and
identifier strings handled by this code are ASCII). -/
def rustToLowercase (s : String) : String := ⟨s.data.map Char.toLower⟩

/-- Rust `str::to_uppercase` restricted to its ASCII behaviour. -/
def rustToUppercase (s : String) : String := ⟨s.data.map Char.toUpper⟩

/-- Rust `str::contains(char)`. -/
def rustContains (s : String) (c : Char) : Bool := s.data.contains c

/-- Character-level worker for `rustSplit`; always returns at least one piece. -/
def splitCharList (sep : Char) : List Char → List (List Char)
  | [] => [[]]
  | c :: rest =>
    let r := splitCharList sep rest
    if c = sep then [] :: r
    else
      match r with
      | [] => [[c]]
      | h :: t => (c :: h) :: t

/-- Rust `str::split(char)` collected into a vector (`"".split(c)` yields `[""]`). -/
def rustSplit (s : String) (sep : Char) : List String :=
  (splitCharList sep s.data).map (fun l => ⟨l⟩)

/-- Rust `slice::join` for strings. -/
def rustJoin (sep : String) : List String → String
  | [] => ""
  | [x] => x
  | x :: xs => x ++ sep ++ rustJoin sep xs

/-- Rust `str::replace(char, &str)`. -/
def rustReplaceChar (s : String) (c : Char) (r : String) : String :=
  ⟨s.data.foldr (fun ch acc => if ch = c then r.data ++ acc else ch :: acc) []⟩

/-- Rust `str::starts_with(&str)`. -/
def rustStartsWith (s p : String) : Bool := p.data.isPrefixOf s.data

/-! ## Identifier & Principal Validator (`src/auth/role_manager.rs`) -/

/-- `is_valid_role_name` from `src/auth/role_manager.rs:155`:
validates role/schema/table names to prevent SQL injection.  Note the Rust
code tests `name.len() <= 63`, which is the UTF-8 *byte* length. -/
def is_valid_role_name (name : String) : Bool :=
  !name.data.isEmpty
    && decide (rustByteLen name ≤ 63)
    && name.data.all (fun c => c.isAlphanum || c == '_' || c == '-')
    && ((name.data.head?.map (fun c => c.isAlpha || c == '_')).getD false)

/-- `quote_ident` from `src/auth/role_manager.rs:168`: wraps in double quotes,
doubling embedded double-quote characters. -/
def quote_ident (name : String) : String :=
  "\"" ++ rustReplaceChar name '"' "\"\"" ++ "\""

/-- The identifier contract exactly as the spec words it (§4.1): true iff
non-empty, at most 63 characters long, first character alphabetic or
underscore, remaining characters alphanumeric/underscore/hyphen. -/
def specValidIdentifier (name : String) : Bool :=
  match name.data with
  | [] => false
  | c :: rest =>
    decide (name.data.length ≤ 63)
      && (c.isAlpha || c == '_')
      && rest.all (fun ch => ch.isAlphanum || ch == '_' || ch == '-')

/-! ## Error type (`src/error.rs`)

`AppError` variants carry their formatted message strings.  Variants whose
payload is a wrapped foreign error (`sqlx::Error`, `serde_json::Error`,
`std::io::Error`) carry that error's display string. -/

inductive AppError where
  | notFound (msg : String)
  | badRequest (msg : String)
  | unauthorized (msg : String)
  | forbidden (msg : String)
  | conflict (msg : String)
  | preconditionFailed (msg : String)
  | internal (msg : String)
  | database (msg : String)
  | serialization (msg : String)
  | ioError (msg : String)
  | config (msg : String)
  | storage (msg : String)
  | processing (msg : String)
deriving Repr, DecidableEq

/-! ## Filter Compiler (`src/api/features/query.rs`)

The `cql2` crate's `Expr` tree is embedded below.  Two representation
choices: a `Float` literal is carried as its Rust `to_string` rendering
(floating-point formatting is outside the scope of any claim), and a
GeoJSON geometry is carried as its `serde_json::to_string` serialization
(the compiler only ever uses the serialized form). -/

/-- The apostrophe character (written via its code point to keep source
scanners happy). -/
def apostrophe : Char := Char.ofNat 39

/-- `cql2::Geometry`. -/
inductive Cql2Geometry where
  | wkt (s : String)
  | geoJSON (json : String)
deriving Repr, DecidableEq

/-- `cql2::Expr`. -/
inductive Cql2Expr where
  | bool (b : Bool)
  | float (f : String)
  | literal (s : String)
  | property (name : String)
  | null
  | date (d : Cql2Expr)
  | timestamp (ts : Cql2Expr)
  | interval (l : List Cql2Expr)
  | bbox (l : List Cql2Expr)
  | geometry (g : Cql2Geometry)
  | array (l : List Cql2Expr)
  | operation (op : String) (args : List Cql2Expr)
deriving Repr

/-- `Cql2Parser::property_to_sql` (`src/api/features/query.rs:448`).  The
second argument `pre` is the caller-supplied table alias that every resolved
reference is prefixed with. -/
def property_to_sql (property pre : String) : String :=
  if rustContains property '.' then
    match rustSplit property '.' with
    | [] => pre ++ "\"" ++ property ++ "\""
    | p0 :: rest =>
      if p0 = "properties" then
        pre ++ "properties->>'" ++ rustJoin "'->>" rest ++ "'"
      else
        pre ++ "\"" ++ p0 ++ "\""
  else if property = "geometry" then
    pre ++ "geometry"
  else
    pre ++ "\"" ++ property ++ "\""

/-- `Cql2Parser::geometry_to_sql` (`src/api/features/query.rs:434`). -/
def geometry_to_sql : Cql2Geometry → Except AppError String
  | .wkt wkt => .ok ("ST_GeomFromText('" ++ rustReplaceChar wkt apostrophe "''" ++ "', 4326)")
  | .geoJSON json => .ok ("ST_GeomFromGeoJSON('" ++ rustReplaceChar json apostrophe "''" ++ "')")

/-- The `spatial_mapping` table from `src/api/features/query.rs:349`: CQL2
spatial predicate names to PostGIS function names, 1:1. -/
def spatial_mapping : List (String × String) :=
  [("s_intersects", "ST_Intersects"),
   ("s_contains", "ST_Contains"),
   ("s_within", "ST_Within"),
   ("s_crosses", "ST_Crosses"),
   ("s_overlaps", "ST_Overlaps"),
   ("s_touches", "ST_Touches"),
   ("s_disjoint", "ST_Disjoint"),
   ("s_equals", "ST_Equals")]

mutual

/-- `Cql2Parser::expr_to_postgis_sql` (`src/api/features/query.rs:205`). -/
def expr_to_postgis_sql : Cql2Expr → String → Except AppError String
  | .bool b, _ => .ok (if b then "TRUE" else "FALSE")
  | .float f, _ => .ok f
  | .literal s, _ => .ok ("'" ++ rustReplaceChar s apostrophe "''" ++ "'")
  | .property p, pre => .ok (property_to_sql p pre)
  | .null, _ => .ok "NULL"
  | .date d, pre => do
      let dateStr ← expr_to_postgis_sql d pre
      .ok ("DATE " ++ dateStr)
  | .timestamp ts, pre => do
      let tsStr ← expr_to_postgis_sql ts pre
      .ok ("TIMESTAMP " ++ tsStr)
  | .interval [a, b], pre => do
      let startSql ← expr_to_postgis_sql a pre
      let endSql ← expr_to_postgis_sql b pre
      .ok ("TSTZRANGE(" ++ startSql ++ ", " ++ endSql ++ ")")
  | .interval [], _ => .error (.badRequest "Interval must have 2 elements")
  | .interval [_], _ => .error (.badRequest "Interval must have 2 elements")
  | .interval (_ :: _ :: _ :: _), _ => .error (.badRequest "Interval must have 2 elements")
  | .bbox l, pre =>
      if l.length < 4 then .error (.badRequest "BBox must have at least 4 elements")
      else do
        let coords ← exprs_to_postgis_sql l pre
        match coords with
        | c0 :: c1 :: c2 :: c3 :: _ =>
            .ok ("ST_MakeEnvelope(" ++ c0 ++ ", " ++ c1 ++ ", " ++ c2 ++ ", " ++ c3 ++ ", 4326)")
        | [] => .error (.internal "unreachable: compiling a list preserves its length")
        | [_] => .error (.internal "unreachable: compiling a list preserves its length")
        | [_, _] => .error (.internal "unreachable: compiling a list preserves its length")
        | [_, _, _] => .error (.internal "unreachable: compiling a list preserves its length")
  | .geometry g, _ => geometry_to_sql g
  | .array l, pre => do
      let itemsSql ← exprs_to_postgis_sql l pre
      .ok ("ARRAY[" ++ rustJoin ", " itemsSql ++ "]")
  | .operation op args, pre => operation_to_sql op args pre
  termination_by e _ => (sizeOf e, 0)

/-- `Cql2Parser::operation_to_sql` (`src/api/features/query.rs:279`).  The
Rust `match op_lower.as_str()` over string patterns and the `for` loop over
the constant `spatial_mapping` array are written as the equivalent sequential
equality tests (the loop is unrolled); `op_lower` is inlined at each use, and
each arm whose body inspects `args` is factored into a named helper.  Rust
wildcard fallbacks over list shapes are expanded into the equivalent disjoint
patterns (same result on every input). -/
def operation_to_sql (op : String) (args : List Cql2Expr) (pre : String) :
    Except AppError String :=
  if rustToLowercase op = "and" then do
    let parts ← exprs_to_postgis_sql args pre
    .ok ("(" ++ rustJoin " AND " parts ++ ")")
  else if rustToLowercase op = "or" then do
    let parts ← exprs_to_postgis_sql args pre
    .ok ("(" ++ rustJoin " OR " parts ++ ")")
  else if rustToLowercase op = "not" then not_op args pre
  else if rustToLowercase op = "=" ∨ rustToLowercase op = "eq" then
    binary_op args "=" pre
  else if rustToLowercase op = "<>" ∨ rustToLowercase op = "!=" ∨ rustToLowercase op = "neq" then
    binary_op args "<>" pre
  else if rustToLowercase op = "<" ∨ rustToLowercase op = "lt" then
    binary_op args "<" pre
  else if rustToLowercase op = ">" ∨ rustToLowercase op = "gt" then
    binary_op args ">" pre
  else if rustToLowercase op = "<=" ∨ rustToLowercase op = "lte" then
    binary_op args "<=" pre
  else if rustToLowercase op = ">=" ∨ rustToLowercase op = "gte" then
    binary_op args ">=" pre
  else if rustToLowercase op = "+" then binary_op args "+" pre
  else if rustToLowercase op = "-" then binary_op args "-" pre
  else if rustToLowercase op = "*" then binary_op args "*" pre
  else if rustToLowercase op = "/" then binary_op args "/" pre
  else if rustToLowercase op = "%" then binary_op args "%" pre
  else if rustToLowercase op = "like" then binary_op args "LIKE" pre
  else if rustToLowercase op = "ilike" then binary_op args "ILIKE" pre
  else if rustToLowercase op = "between" then between_op args pre
  else if rustToLowercase op = "in" then in_op args pre
  else if rustToLowercase op = "isnull" ∨ rustToLowercase op = "is null" then
    isnull_op args pre
  else if rustToLowercase op = "s_intersects" then spatial_call "ST_Intersects" op args pre
  else if rustToLowercase op = "s_contains" then spatial_call "ST_Contains" op args pre
  else if rustToLowercase op = "s_within" then spatial_call "ST_Within" op args pre
  else if rustToLowercase op = "s_crosses" then spatial_call "ST_Crosses" op args pre
  else if rustToLowercase op = "s_overlaps" then spatial_call "ST_Overlaps" op args pre
  else if rustToLowercase op = "s_touches" then spatial_call "ST_Touches" op args pre
  else if rustToLowercase op = "s_disjoint" then spatial_call "ST_Disjoint" op args pre
  else if rustToLowercase op = "s_equals" then spatial_call "ST_Equals" op args pre
  else if rustToLowercase op = "s_dwithin" then s_dwithin_op args pre
  else if rustToLowercase op = "t_intersects" then t_intersects_op args pre
  else if rustToLowercase op = "a_contains" then a_contains_op args pre
  else do
    let argsSql ← exprs_to_postgis_sql args pre
    .ok (rustToUppercase op ++ "(" ++ rustJoin ", " argsSql ++ ")")
  termination_by (sizeOf args, 2)

/-- The `"not"` arm of `operation_to_sql` (`src/api/features/query.rs:298`). -/
def not_op (args : List Cql2Expr) (pre : String) : Except AppError String :=
  match args with
  | [a] => do
      let inner ← expr_to_postgis_sql a pre
      .ok ("NOT (" ++ inner ++ ")")
  | [] => .error (.badRequest "NOT requires 1 argument")
  | _ :: _ :: _ => .error (.badRequest "NOT requires 1 argument")
  termination_by (sizeOf args, 1)

/-- The `"between"` arm of `operation_to_sql` (`src/api/features/query.rs:318`). -/
def between_op (args : List Cql2Expr) (pre : String) : Except AppError String :=
  match args with
  | [v, lo, hi] => do
      let val ← expr_to_postgis_sql v pre
      let lower ← expr_to_postgis_sql lo pre
      let upper ← expr_to_postgis_sql hi pre
      .ok (val ++ " BETWEEN " ++ lower ++ " AND " ++ upper)
  | [] => .error (.badRequest "BETWEEN requires 3 arguments")
  | [_] => .error (.badRequest "BETWEEN requires 3 arguments")
  | [_, _] => .error (.badRequest "BETWEEN requires 3 arguments")
  | _ :: _ :: _ :: _ :: _ => .error (.badRequest "BETWEEN requires 3 arguments")
  termination_by (sizeOf args, 1)

/-- The `"in"` arm of `operation_to_sql` (`src/api/features/query.rs:327`). -/
def in_op (args : List Cql2Expr) (pre : String) : Except AppError String :=
  match args with
  | v :: l1 :: lrest => do
      let val ← expr_to_postgis_sql v pre
      let list ← exprs_to_postgis_sql (l1 :: lrest) pre
      .ok (val ++ " IN (" ++ rustJoin ", " list ++ ")")
  | [] => .error (.badRequest "IN requires at least 2 arguments")
  | [_] => .error (.badRequest "IN requires at least 2 arguments")
  termination_by (sizeOf args, 1)

/-- The `"isnull" | "is null"` arm of `operation_to_sql`
(`src/api/features/query.rs:338`). -/
def isnull_op (args : List Cql2Expr) (pre : String) : Except AppError String :=
  match args with
  | [a] => do
      let inner ← expr_to_postgis_sql a pre
      .ok (inner ++ " IS NULL")
  | [] => .error (.badRequest "IS NULL requires 1 argument")
  | _ :: _ :: _ => .error (.badRequest "IS NULL requires 1 argument")
  termination_by (sizeOf args, 1)

/-- The `s_dwithin` arm of `operation_to_sql` (`src/api/features/query.rs:375`). -/
def s_dwithin_op (args : List Cql2Expr) (pre : String) : Except AppError String :=
  match args with
  | [g1, g2, d] => do
      let geom1 ← expr_to_postgis_sql g1 pre
      let geom2 ← expr_to_postgis_sql g2 pre
      let distance ← expr_to_postgis_sql d pre
      .ok ("ST_DWithin(" ++ geom1 ++ ", " ++ geom2 ++ ", " ++ distance ++ ")")
  | [] => .error (.badRequest "S_DWITHIN requires 3 arguments")
  | [_] => .error (.badRequest "S_DWITHIN requires 3 arguments")
  | [_, _] => .error (.badRequest "S_DWITHIN requires 3 arguments")
  | _ :: _ :: _ :: _ :: _ => .error (.badRequest "S_DWITHIN requires 3 arguments")
  termination_by (sizeOf args, 1)

/-- The `t_intersects` arm of `operation_to_sql` (`src/api/features/query.rs:388`). -/
def t_intersects_op (args : List Cql2Expr) (pre : String) : Except AppError String :=
  match args with
  | [t1, t2] => do
      let time1 ← expr_to_postgis_sql t1 pre
      let time2 ← expr_to_postgis_sql t2 pre
      .ok ("(" ++ time1 ++ " && " ++ time2 ++ ")")
  | [] => .error (.badRequest "T_INTERSECTS requires 2 arguments")
  | [_] => .error (.badRequest "T_INTERSECTS requires 2 arguments")
  | _ :: _ :: _ :: _ => .error (.badRequest "T_INTERSECTS requires 2 arguments")
  termination_by (sizeOf args, 1)

/-- The `a_contains` arm of `operation_to_sql` (`src/api/features/query.rs:400`). -/
def a_contains_op (args : List Cql2Expr) (pre : String) : Except AppError String :=
  match args with
  | [arr, v] => do
      let arrSql ← expr_to_postgis_sql arr pre
      let valSql ← expr_to_postgis_sql v pre
      .ok ("(" ++ arrSql ++ " @> " ++ valSql ++ ")")
  | [] => .error (.badRequest "A_CONTAINS requires 2 arguments")
  | [_] => .error (.badRequest "A_CONTAINS requires 2 arguments")
  | _ :: _ :: _ :: _ => .error (.badRequest "A_CONTAINS requires 2 arguments")
  termination_by (sizeOf args, 1)

/-- One iteration of the `spatial_mapping` loop body
(`src/api/features/query.rs:360`): a matched spatial predicate requires
exactly 2 children and compiles to the PostGIS function call. -/
def spatial_call (pg_name op : String) (args : List Cql2Expr) (pre : String) :
    Except AppError String :=
  match args with
  | [a1, a2] => do
      let arg1 ← expr_to_postgis_sql a1 pre
      let arg2 ← expr_to_postgis_sql a2 pre
      .ok (pg_name ++ "(" ++ arg1 ++ ", " ++ arg2 ++ ")")
  | [] => .error (.badRequest (op ++ " requires 2 arguments"))
  | [_] => .error (.badRequest (op ++ " requires 2 arguments"))
  | _ :: _ :: _ :: _ => .error (.badRequest (op ++ " requires 2 arguments"))
  termination_by (sizeOf args, 1)

/-- `Cql2Parser::binary_op` (`src/api/features/query.rs:421`). -/
def binary_op (args : List Cql2Expr) (sql_op : String) (pre : String) :
    Except AppError String :=
  match args with
  | [a, b] => do
      let left ← expr_to_postgis_sql a pre
      let right ← expr_to_postgis_sql b pre
      .ok ("(" ++ left ++ " " ++ sql_op ++ " " ++ right ++ ")")
  | [] => .error (.badRequest (sql_op ++ " requires 2 arguments"))
  | [_] => .error (.badRequest (sql_op ++ " requires 2 arguments"))
  | _ :: _ :: _ :: _ => .error (.badRequest (sql_op ++ " requires 2 arguments"))
  termination_by (sizeOf args, 1)

/-- The `collect::<AppResult<Vec<_>>>()` pattern: compile every expression of
a list, propagating the first error. -/
def exprs_to_postgis_sql : List Cql2Expr → String → Except AppError (List String)
  | [], _ => .ok []
  | e :: rest, pre => do
      let s ← expr_to_postgis_sql e pre
      let ss ← exprs_to_postgis_sql rest pre
      .ok (s :: ss)
  termination_by l _ => (sizeOf l, 0)

end


/-! ## Resource Catalog & Sharing (`src/services/collection_service.rs`)

The database is modelled by an explicit `DbState`.  Timestamps
(`created_at`/`updated_at`) are omitted: no claim concerns them.  A `Uuid`
is modelled by a `Nat` (`fresh_id` parameters stand for `Uuid::new_v4()`;
freshness is a hypothesis where a claim needs it).  `version` is an `Int`
(PostgreSQL `BIGINT`; overflow, which the database would surface as an
error, is unreachable for any realistic mutation count and irrelevant to
the claims).  A service method that returns `Except.error` models its
transaction aborting: the caller keeps the unchanged input state. -/

/-- A row of `spatialvault.collections` (`src/db/models.rs:7`). -/
structure Collection where
  id : Nat
  canonical_name : String
  owner : String
  schema_name : String
  table_name : String
  collection_type : String
  title : String
  description : Option String
  version : Int
deriving Repr, DecidableEq

/-- One row of `information_schema.table_privileges`. -/
structure Grant where
  schema : String
  table : String
  grantee : String
  privilege : String
deriving Repr, DecidableEq

/-- The database state visible to the collection service: catalog rows,
alias records, physical (schema, table) pairs, native roles,
schema-USAGE grants, table grants, and `pg_auth_members` edges
`(member, role)` (the role that *has* members is the second component). -/
structure DbState where
  collections : List Collection
  aliases : List (String × String)
  tables : List (String × String)
  roles : List String
  schemaGrants : List (String × String)
  grants : List Grant
  memberships : List (String × String)
deriving Repr, DecidableEq

/-- `PermissionLevel` (`src/api/collections/sharing.rs:26`). -/
inductive PermissionLevel where
  | read
  | write
deriving Repr, DecidableEq

/-- `ShareEntry` (`src/api/collections/sharing.rs:42`). -/
structure ShareEntry where
  principal : String
  principal_type : String
  permission : PermissionLevel
deriving Repr, DecidableEq

/-- `CollectionService::get_collection` (`src/services/collection_service.rs:50`):
a point read by exact `canonical_name`; the `username` parameter is unused in
the Rust code as well. -/
def get_collection (s : DbState) (_username collection_id : String) : Option Collection :=
  s.collections.find? (fun c => c.canonical_name == collection_id)

/-- `CollectionService::get_alias` (`src/services/collection_service.rs:65`). -/
def get_alias (s : DbState) (name : String) : Option String :=
  (s.aliases.find? (fun a => a.1 == name)).map (fun a => a.2)

/-- The `if let Some(version) = expected_version { if current.version != version … } `
pattern shared by update/replace/delete. -/
def version_conflict : Option Int → Int → Bool
  | some v, current => current != v
  | none, _ => false

/-- The shared `fetch_optional(...).ok_or_else(NotFound)` pattern of the
mutation and sharing methods: look the collection up by canonical name and
continue with it, or fail with `NotFound`. -/
def with_found (s : DbState) (collection_id : String)
    (k : Collection → Except AppError α) : Except AppError α :=
  match s.collections.find? (fun c => c.canonical_name == collection_id) with
  | none => .error (.notFound ("Collection not found: " ++ collection_id))
  | some current => k current

/-- `CollectionService::update_collection` (`src/services/collection_service.rs:176`):
existence → version (if supplied) → ownership → optional alias insert →
`UPDATE … SET canonical_name, title = COALESCE($2, title),
description = COALESCE($3, description), version = version + 1 WHERE id = …
RETURNING *`. -/
def update_collection (s : DbState) (username collection_id : String)
    (expected_version : Option Int) (title description new_name : Option String) :
    Except AppError (DbState × Collection) :=
  with_found s collection_id fun current =>
    if version_conflict expected_version current.version then
      .error (.preconditionFailed "Collection has been modified")
    else if current.owner ≠ username then
      .error (.forbidden "Only owner can update collection")
    else
      let aliasRows := match new_name with
        | some n => s.aliases ++ [(collection_id, n)]
        | none => s.aliases
      let final_name := match new_name with
        | some n => n
        | none => collection_id
      let updated : Collection :=
        { current with
          canonical_name := final_name
          title := match title with | some t => t | none => current.title
          description := match description with | some d => some d | none => current.description
          version := current.version + 1 }
      .ok ({ s with
              collections := s.collections.map (fun c => if c.id == current.id then updated else c)
              aliases := aliasRows },
           updated)

/-- `CollectionService::replace_collection` (`src/services/collection_service.rs:255`):
PUT semantics — title and description are replaced outright. -/
def replace_collection (s : DbState) (username collection_id : String)
    (expected_version : Option Int) (title : String) (description : Option String) :
    Except AppError (DbState × Collection) :=
  with_found s collection_id fun current =>
    if version_conflict expected_version current.version then
      .error (.preconditionFailed "Collection has been modified")
    else if current.owner ≠ username then
      .error (.forbidden "Only owner can update collection")
    else
      let updated : Collection :=
        { current with
          title := title
          description := description
          version := current.version + 1 }
      .ok ({ s with
              collections := s.collections.map (fun c => if c.id == current.id then updated else c) },
           updated)

/-- `CollectionService::delete_collection` (`src/services/collection_service.rs:314`):
existence → version (if supplied) → ownership → `DROP TABLE IF EXISTS` for
vector collections → `DELETE … WHERE id = …`. -/
def delete_collection (s : DbState) (username collection_id : String)
    (expected_version : Option Int) : Except AppError DbState :=
  with_found s collection_id fun collection =>
    if version_conflict expected_version collection.version then
      .error (.preconditionFailed "Collection has been modified")
    else if collection.owner ≠ username then
      .error (.forbidden "Only owner can delete collection")
    else
      let tablesAfterDrop :=
        if collection.collection_type == "vector" then
          s.tables.filter (fun t =>
            !(t.1 == collection.schema_name && t.2 == collection.table_name))
        else s.tables
      .ok { s with
            tables := tablesAfterDrop
            collections := s.collections.filter (fun c => !(c.id == collection.id)) }

/-- `RoleManager::ensure_user_role` (`src/auth/role_manager.rs:16`): validates
the name, then idempotently provisions the native role (the stored
`spatialvault.ensure_role` function; its private-schema side effect is not
needed by any claim). -/
def ensure_user_role (s : DbState) (username : String) : Except AppError DbState :=
  if !(is_valid_role_name username) then
    .error (.badRequest ("Invalid username: " ++ username))
  else
    .ok { s with roles := if s.roles.contains username then s.roles else s.roles ++ [username] }

/-- `CollectionService::create_collection` (`src/services/collection_service.rs:76`):
ensures the owner role, derives `{schema, table}` from the colon-split
canonical name, validates both, inserts the catalog row and — only for
`"vector"` — creates the dedicated table, all in one transaction.
`fresh_id` stands for `Uuid::new_v4()`; the inserted row's `version` is the
catalog table's column default of 1 (the migration defining it is outside
`src/`).  The Rust local `table_name = parts[1..].join("_")` is inlined at
each of its uses. -/
def create_collection (s : DbState) (_username canonical_name owner title : String)
    (description : Option String) (collection_type : String) (_crs : Int) (fresh_id : Nat) :
    Except AppError (DbState × Collection) :=
  match ensure_user_role s owner with
  | .error e => .error e
  | .ok s1 =>
    match rustSplit canonical_name ':' with
    | [] => .error (.badRequest "Invalid collection name")
    | schema_name :: restParts =>
      if rustJoin "_" restParts = "" then
        .error (.badRequest "Collection name must have at least two segments")
      else if !(is_valid_role_name schema_name) then
        .error (.badRequest ("Invalid schema name: " ++ schema_name))
      else if !(is_valid_role_name (rustJoin "_" restParts)) then
        .error (.badRequest ("Invalid table name: " ++ rustJoin "_" restParts))
      else
        .ok ({ s1 with
                collections := s1.collections ++
                  [{ id := fresh_id
                     canonical_name := canonical_name
                     owner := owner
                     schema_name := schema_name
                     table_name := rustJoin "_" restParts
                     collection_type := collection_type
                     title := title
                     description := description
                     version := 1 }]
                tables := if collection_type == "vector" then
                    s1.tables ++ [(schema_name, rustJoin "_" restParts)]
                  else s1.tables },
             { id := fresh_id
               canonical_name := canonical_name
               owner := owner
               schema_name := schema_name
               table_name := rustJoin "_" restParts
               collection_type := collection_type
               title := title
               description := description
               version := 1 })

/-- The HTTP handler `create_collection` (`src/api/collections/handlers.rs:211`):
prefixes the requested id with the username when needed, defaults the owner
to the caller, rejects with `Forbidden` unless the owner equals the caller
or is one of the caller's groups, then calls the service. -/
def handler_create_collection (s : DbState) (username : String) (groups : List String)
    (request_id : String) (request_owner : Option String) (title : String)
    (description : Option String) (collection_type : String) (crs : Int) (fresh_id : Nat) :
    Except AppError (DbState × Collection) :=
  let canonical_name :=
    if rustStartsWith request_id (username ++ ":") then request_id
    else username ++ ":" ++ request_id
  let owner := request_owner.getD username
  if owner ≠ username ∧ groups.contains owner = false then
    .error (.forbidden ("Cannot create collection owned by " ++ owner))
  else
    create_collection s username canonical_name owner title description collection_type crs fresh_id

/-- `RoleManager::role_exists` (`src/auth/role_manager.rs:83`). -/
def role_exists (s : DbState) (role_name : String) : Bool :=
  s.roles.contains role_name

/-- `RoleManager::grant_table_privileges` (`src/auth/role_manager.rs:94`):
validates, grants schema USAGE, then the table privileges (native grants are
idempotent: already-present rows are not duplicated). -/
def grant_table_privileges (s : DbState) (schema table role : String)
    (privileges : List String) : Except AppError DbState :=
  if !(is_valid_role_name schema) || !(is_valid_role_name role) then
    .error (.badRequest "Invalid schema or role name")
  else
    let s1 := { s with schemaGrants :=
      if s.schemaGrants.contains (schema, role) then s.schemaGrants
      else s.schemaGrants ++ [(schema, role)] }
    .ok { s1 with grants := privileges.foldl (fun acc p =>
      if acc.any (fun g =>
          g.schema == schema && g.table == table && g.grantee == role && g.privilege == p)
      then acc
      else acc ++ [⟨schema, table, role, p⟩]) s1.grants }

/-- `RoleManager::revoke_table_privileges` (`src/auth/role_manager.rs:130`):
`REVOKE ALL` — removes every table grant of this role on this table. -/
def revoke_table_privileges (s : DbState) (schema table role : String) :
    Except AppError DbState :=
  if !(is_valid_role_name schema) || !(is_valid_role_name role) then
    .error (.badRequest "Invalid schema or role name")
  else
    .ok { s with grants := s.grants.filter (fun g =>
            !(g.schema == schema && g.table == table && g.grantee == role)) }

/-- Worker for `dedupFirst`: keep the elements not seen yet. -/
def dedupGo (seen : List String) : List String → List String
  | [] => []
  | x :: xs => if seen.contains x then dedupGo seen xs else x :: dedupGo (seen ++ [x]) xs

/-- Distinct keys of the grants grouping, in first-occurrence order (the Rust
groups into a `HashMap`, whose iteration order is unspecified; the key set
and the per-key privilege lists produced are the same). -/
def dedupFirst (l : List String) : List String := dedupGo [] l

/-- `CollectionService::list_shares` (`src/services/collection_service.rs:696`):
existence → ownership → query live grants for the collection's
schema/table excluding the owner and `PUBLIC` → group by grantee →
classify permission (`write` iff any of INSERT/UPDATE/DELETE) and
principal type (`group` iff any `pg_auth_members` edge names the grantee
as a role with members). -/
def list_shares (s : DbState) (username collection_id : String) :
    Except AppError (List ShareEntry) :=
  with_found s collection_id fun collection =>
    if collection.owner ≠ username then
      .error (.forbidden "Only owner can view sharing settings")
    else
      let table_grants := s.grants.filter (fun g =>
        g.schema == collection.schema_name && g.table == collection.table_name &&
        g.grantee != collection.owner && g.grantee != "PUBLIC")
      let grantees := dedupFirst (table_grants.map (fun g => g.grantee))
      .ok (grantees.map (fun principal =>
        let privileges := (table_grants.filter (fun g => g.grantee == principal)).map
          (fun g => g.privilege)
        let permission :=
          if privileges.any (fun p => p == "INSERT" || p == "UPDATE" || p == "DELETE")
          then PermissionLevel.write else PermissionLevel.read
        let is_group := s.memberships.any (fun m => m.2 == principal)
        { principal := principal
          principal_type := if is_group then "group" else "user"
          permission := permission }))

/-- `CollectionService::add_share` (`src/services/collection_service.rs:773`):
existence → ownership → role existence → grant (SELECT for read;
SELECT/INSERT/UPDATE/DELETE for write). -/
def add_share (s : DbState) (username collection_id principal : String)
    (_principal_type : String) (permission : PermissionLevel) : Except AppError DbState :=
  with_found s collection_id fun collection =>
    if collection.owner ≠ username then
      .error (.forbidden "Only owner can manage sharing")
    else if !(role_exists s principal) then
      .error (.notFound ("Role not found: " ++ principal))
    else
      let privileges := match permission with
        | .read => ["SELECT"]
        | .write => ["SELECT", "INSERT", "UPDATE", "DELETE"]
      grant_table_privileges s collection.schema_name collection.table_name principal privileges

/-- `CollectionService::remove_share` (`src/services/collection_service.rs:819`):
existence → ownership → revoke all. -/
def remove_share (s : DbState) (username collection_id principal : String) :
    Except AppError DbState :=
  with_found s collection_id fun collection =>
    if collection.owner ≠ username then
      .error (.forbidden "Only owner can manage sharing")
    else
      revoke_table_privileges s collection.schema_name collection.table_name principal


/-- A sample collection row for the concrete witnesses. -/
def cSample : Collection :=
  { id := 1, canonical_name := "alice:c", owner := "alice", schema_name := "alice",
    table_name := "c", collection_type := "vector", title := "T", description := none,
    version := 5 }

/-- A sample database state holding `cSample`. -/
def sSample : DbState :=
  { collections := [cSample], aliases := [], tables := [("alice", "c")],
    roles := ["alice"], schemaGrants := [], grants := [], memberships := [] }


set_option maxHeartbeats 1000000

/-- Ordering of characters transfers to their code points. -/
theorem char_toNat_le_of_le {a b : Char} (h : a ≤ b) : a.toNat ≤ b.toNat := by
  have := Char.le_def.mp h
  exact_mod_cast this

/-- Every character admitted by the validator's character class encodes to a
single UTF-8 byte. -/
theorem utf8CharLen_eq_one_of_valid_char (c : Char)
    (h : (c.isAlphanum || c == '_' || c == '-') = true) : utf8CharLen c = 1 := by
  have hlt : c.toNat < 0x80 := by
    rcases Bool.or_eq_true_iff.mp h with h' | h'
    · rcases Bool.or_eq_true_iff.mp h' with h'' | h''
      · unfold Char.isAlphanum Char.isAlpha Char.isUpper Char.isLower Char.isDigit at h''
        rcases Bool.or_eq_true_iff.mp h'' with ha | hd
        · rcases Bool.or_eq_true_iff.mp ha with hu | hl
          · simp only [Bool.and_eq_true, decide_eq_true_eq] at hu
            exact lt_of_le_of_lt (UInt32.toNat_le_of_le (by decide) hu.2) (by decide)
          · simp only [Bool.and_eq_true, decide_eq_true_eq] at hl
            exact lt_of_le_of_lt (UInt32.toNat_le_of_le (by decide) hl.2) (by decide)
        · simp only [Bool.and_eq_true, decide_eq_true_eq] at hd
          exact lt_of_le_of_lt (UInt32.toNat_le_of_le (by decide) hd.2) (by decide)
      · have : c = '_' := by simpa using h''
        subst this; decide
    · have : c = '-' := by simpa using h'
      subst this; decide
  unfold utf8CharLen
  simp [hlt]

/-- If every character lies in the validator's character class, byte length and
character count agree. -/
theorem rustByteLen_eq_length_of_valid (l : List Char)
    (h : l.all (fun c => c.isAlphanum || c == '_' || c == '-') = true) :
    (l.map utf8CharLen).sum = l.length := by
  induction l with
  | nil => rfl
  | cons c rest ih =>
    simp only [List.all_cons, Bool.and_eq_true] at h
    simp only [List.map_cons, List.sum_cons, List.length_cons,
      utf8CharLen_eq_one_of_valid_char c h.1, ih h.2]
    omega

/-- An alphabetic-or-underscore character is in the validator's class. -/
theorem valid_first_char_mem_class (c : Char) (h : (c.isAlpha || c == '_') = true) :
    (c.isAlphanum || c == '_' || c == '-') = true := by
  rcases Bool.or_eq_true_iff.mp h with h' | h'
  · simp [Char.isAlphanum, h']
  · simp [h']

/-- **C4.** For every string `name`, the identifier validator returns true iff
`name` is non-empty, at most 63 characters long, its first character is
alphabetic or underscore, and every remaining character is alphanumeric,
underscore, or hyphen (the contract stated in spec §4.1). -/
theorem is_valid_role_name_iff_spec (name : String) :
    is_valid_role_name name = true ↔ specValidIdentifier name = true := by
  unfold is_valid_role_name specValidIdentifier
  cases hd : name.data with
  | nil => simp [hd]
  | cons c rest =>
    unfold rustByteLen
    rw [hd]
    simp only [List.isEmpty_cons, Bool.not_false, Bool.true_and, List.all_cons,
      List.head?_cons, Option.map_some, Option.getD_some, Bool.and_eq_true,
      decide_eq_true_eq, List.length_cons]
    constructor
    · rintro ⟨⟨hlen, hcls, hall⟩, hfirst⟩
      have heq : ((c :: rest).map utf8CharLen).sum = (c :: rest).length := by
        apply rustByteLen_eq_length_of_valid
        simp [hcls, hall]
      rw [heq] at hlen
      simp only [List.length_cons] at hlen
      exact ⟨⟨hlen, hfirst⟩, hall⟩
    · rintro ⟨⟨hlen, hfirst⟩, hall⟩
      have hcls : (c.isAlphanum || c == '_' || c == '-') = true :=
        valid_first_char_mem_class c hfirst
      have heq : ((c :: rest).map utf8CharLen).sum = (c :: rest).length := by
        apply rustByteLen_eq_length_of_valid
        simp [hcls, hall]
      rw [heq]
      simp only [List.length_cons]
      exact ⟨⟨hlen, hcls, hall⟩, hfirst⟩

/-- Witness for C4: both sides of the characterization at concrete names. -/
theorem is_valid_role_name_iff_spec_witness :
    is_valid_role_name "users_2024-a" = true ∧ is_valid_role_name "9bad" = false := by
  constructor
  · exact (is_valid_role_name_iff_spec "users_2024-a").mpr (by decide)
  · have h := is_valid_role_name_iff_spec "9bad"
    revert h
    decide



/-! ### Equation and arm lemmas for the compiler -/

theorem expr_operation_eq (op : String) (args : List Cql2Expr) (pre : String) :
    expr_to_postgis_sql (.operation op args) pre = operation_to_sql op args pre := by
  rw [expr_to_postgis_sql]

theorem expr_literal_eq (s pre : String) :
    expr_to_postgis_sql (.literal s) pre =
      .ok ("'" ++ rustReplaceChar s apostrophe "''" ++ "'") := by
  rw [expr_to_postgis_sql]

theorem expr_property_eq (p pre : String) :
    expr_to_postgis_sql (.property p) pre = .ok (property_to_sql p pre) := by
  rw [expr_to_postgis_sql]

theorem expr_float_eq (f pre : String) :
    expr_to_postgis_sql (.float f) pre = .ok f := by
  rw [expr_to_postgis_sql]

theorem expr_geometry_eq (g : Cql2Geometry) (pre : String) :
    expr_to_postgis_sql (.geometry g) pre = geometry_to_sql g := by
  rw [expr_to_postgis_sql]

theorem binary_op_arity (args : List Cql2Expr) (s pre : String) (h : args.length ≠ 2) :
    binary_op args s pre = .error (.badRequest (s ++ " requires 2 arguments")) := by
  match args, h with
  | [], _ => rw [binary_op]
  | [a], _ => rw [binary_op]
  | a :: b :: c :: rest, _ => rw [binary_op]
  | [a, b], h => exact absurd rfl h

theorem binary_op_ok (a b : Cql2Expr) (s pre sa sb : String)
    (ha : expr_to_postgis_sql a pre = .ok sa) (hb : expr_to_postgis_sql b pre = .ok sb) :
    binary_op [a, b] s pre = .ok ("(" ++ sa ++ " " ++ s ++ " " ++ sb ++ ")") := by
  rw [binary_op, ha, hb]
  rfl

theorem not_op_arity (args : List Cql2Expr) (pre : String) (h : args.length ≠ 1) :
    not_op args pre = .error (.badRequest "NOT requires 1 argument") := by
  match args, h with
  | [], _ => rw [not_op]
  | a :: b :: rest, _ => rw [not_op]
  | [a], h => exact absurd rfl h

theorem not_op_ok (a : Cql2Expr) (pre sa : String)
    (ha : expr_to_postgis_sql a pre = .ok sa) :
    not_op [a] pre = .ok ("NOT (" ++ sa ++ ")") := by
  rw [not_op, ha]
  rfl

theorem between_op_arity (args : List Cql2Expr) (pre : String) (h : args.length ≠ 3) :
    between_op args pre = .error (.badRequest "BETWEEN requires 3 arguments") := by
  match args, h with
  | [], _ => rw [between_op]
  | [a], _ => rw [between_op]
  | [a, b], _ => rw [between_op]
  | a :: b :: c :: d :: rest, _ => rw [between_op]
  | [a, b, c], h => exact absurd rfl h

theorem between_op_ok (v lo hi : Cql2Expr) (pre sv slo shi : String)
    (hv : expr_to_postgis_sql v pre = .ok sv)
    (hlo : expr_to_postgis_sql lo pre = .ok slo)
    (hhi : expr_to_postgis_sql hi pre = .ok shi) :
    between_op [v, lo, hi] pre = .ok (sv ++ " BETWEEN " ++ slo ++ " AND " ++ shi) := by
  rw [between_op, hv, hlo, hhi]
  rfl

theorem in_op_arity (args : List Cql2Expr) (pre : String) (h : args.length < 2) :
    in_op args pre = .error (.badRequest "IN requires at least 2 arguments") := by
  match args, h with
  | [], _ => rw [in_op]
  | [a], _ => rw [in_op]
  | a :: b :: rest, h => exact absurd h (by simp)

theorem in_op_ok (v l1 : Cql2Expr) (lrest : List Cql2Expr) (pre sv : String)
    (slist : List String)
    (hv : expr_to_postgis_sql v pre = .ok sv)
    (hlist : exprs_to_postgis_sql (l1 :: lrest) pre = .ok slist) :
    in_op (v :: l1 :: lrest) pre = .ok (sv ++ " IN (" ++ rustJoin ", " slist ++ ")") := by
  rw [in_op, hv, hlist]
  rfl

theorem spatial_call_arity (pg_name op : String) (args : List Cql2Expr) (pre : String)
    (h : args.length ≠ 2) :
    spatial_call pg_name op args pre = .error (.badRequest (op ++ " requires 2 arguments")) := by
  match args, h with
  | [], _ => rw [spatial_call]
  | [a], _ => rw [spatial_call]
  | a :: b :: c :: rest, _ => rw [spatial_call]
  | [a, b], h => exact absurd rfl h

theorem spatial_call_ok (pg_name op : String) (a1 a2 : Cql2Expr) (pre s1 s2 : String)
    (h1 : expr_to_postgis_sql a1 pre = .ok s1) (h2 : expr_to_postgis_sql a2 pre = .ok s2) :
    spatial_call pg_name op [a1, a2] pre = .ok (pg_name ++ "(" ++ s1 ++ ", " ++ s2 ++ ")") := by
  rw [spatial_call, h1, h2]
  rfl

theorem s_dwithin_op_arity (args : List Cql2Expr) (pre : String) (h : args.length ≠ 3) :
    s_dwithin_op args pre = .error (.badRequest "S_DWITHIN requires 3 arguments") := by
  match args, h with
  | [], _ => rw [s_dwithin_op]
  | [a], _ => rw [s_dwithin_op]
  | [a, b], _ => rw [s_dwithin_op]
  | a :: b :: c :: d :: rest, _ => rw [s_dwithin_op]
  | [a, b, c], h => exact absurd rfl h

theorem s_dwithin_op_ok (g1 g2 d : Cql2Expr) (pre s1 s2 sd : String)
    (h1 : expr_to_postgis_sql g1 pre = .ok s1) (h2 : expr_to_postgis_sql g2 pre = .ok s2)
    (hd : expr_to_postgis_sql d pre = .ok sd) :
    s_dwithin_op [g1, g2, d] pre = .ok ("ST_DWithin(" ++ s1 ++ ", " ++ s2 ++ ", " ++ sd ++ ")") := by
  rw [s_dwithin_op, h1, h2, hd]
  rfl


/-! ### Claims C5, C6, C7 -/

/-- **C5.** For every property reference compiled by the filter compiler with
caller-supplied alias `pre`: a reference containing a `'.'` whose first
segment is the document root name `"properties"` compiles to a path into the
JSONB document column with the segments after the first joined by the `->>`
accessor operator; a bare `"geometry"` reference compiles to the spatial
column; any other bare name compiles to a regular double-quoted column
reference — all three forms prefixed with `pre`. -/
theorem property_to_sql_resolution (property pre : String) :
    (∀ rest, rustContains property '.' = true →
      rustSplit property '.' = "properties" :: rest →
      property_to_sql property pre =
        pre ++ "properties->>'" ++ rustJoin "'->>" rest ++ "'")
    ∧ (property = "geometry" → property_to_sql property pre = pre ++ "geometry")
    ∧ (rustContains property '.' = false → property ≠ "geometry" →
      property_to_sql property pre = pre ++ "\"" ++ property ++ "\"") := by
  refine And.intro ?_ (And.intro ?_ ?_)
  · intro rest hc hsplit
    unfold property_to_sql
    rw [if_pos hc, hsplit]
    rfl
  · intro h
    subst h
    rfl
  · intro hc hne
    unfold property_to_sql
    rw [if_neg (by simp [hc]), if_neg hne]

/-- Witness for C5: the three resolution forms at concrete inputs. -/
theorem property_to_sql_resolution_witness :
    property_to_sql "properties.name" "t." = "t.properties->>'name'"
    ∧ property_to_sql "geometry" "t." = "t.geometry"
    ∧ property_to_sql "title" "t." = "t.\"title\"" := by
  refine And.intro ?_ (And.intro ?_ ?_)
  · rw [(property_to_sql_resolution "properties.name" "t.").1 ["name"] (by decide) (by decide)]
    rfl
  · exact (property_to_sql_resolution "geometry" "t.").2.1 rfl
  · rw [(property_to_sql_resolution "title" "t.").2.2 (by decide) (by decide)]
    rfl

/-- **C6.** For every filter expression operator of the binary
comparison/arithmetic family (`=`, `<>`, `<`, `>`, `<=`, `>=`, `+`, `-`,
`*`, `/`, `%`, `LIKE`, `ILIKE`), for `NOT`, for `BETWEEN` and for `IN`, the
compiler returns a descriptive `BadRequest` compile error — never a
default — when the child count is wrong (binary: ≠ 2, `NOT`: ≠ 1,
`BETWEEN`: ≠ 3, `IN`: < 2), and compilation succeeds at exactly the stated
arities when the children themselves compile. -/
theorem operation_arity_errors (op pre : String) (args : List Cql2Expr) :
    ((rustToLowercase op = "=" ∨ rustToLowercase op = "<>" ∨ rustToLowercase op = "<" ∨
      rustToLowercase op = ">" ∨ rustToLowercase op = "<=" ∨ rustToLowercase op = ">=" ∨
      rustToLowercase op = "+" ∨ rustToLowercase op = "-" ∨ rustToLowercase op = "*" ∨
      rustToLowercase op = "/" ∨ rustToLowercase op = "%" ∨ rustToLowercase op = "like" ∨
      rustToLowercase op = "ilike") →
      (args.length ≠ 2 →
        ∃ m, operation_to_sql op args pre = .error (.badRequest m)) ∧
      (∀ a b sa sb, args = [a, b] →
        expr_to_postgis_sql a pre = .ok sa → expr_to_postgis_sql b pre = .ok sb →
        ∃ out, operation_to_sql op args pre = .ok out)) ∧
    (rustToLowercase op = "not" →
      (args.length ≠ 1 →
        operation_to_sql op args pre = .error (.badRequest "NOT requires 1 argument")) ∧
      (∀ a sa, args = [a] → expr_to_postgis_sql a pre = .ok sa →
        operation_to_sql op args pre = .ok ("NOT (" ++ sa ++ ")"))) ∧
    (rustToLowercase op = "between" →
      (args.length ≠ 3 →
        operation_to_sql op args pre = .error (.badRequest "BETWEEN requires 3 arguments")) ∧
      (∀ v lo hi sv slo shi, args = [v, lo, hi] →
        expr_to_postgis_sql v pre = .ok sv → expr_to_postgis_sql lo pre = .ok slo →
        expr_to_postgis_sql hi pre = .ok shi →
        operation_to_sql op args pre = .ok (sv ++ " BETWEEN " ++ slo ++ " AND " ++ shi))) ∧
    (rustToLowercase op = "in" →
      (args.length < 2 →
        operation_to_sql op args pre =
          .error (.badRequest "IN requires at least 2 arguments")) ∧
      (∀ v l1 lrest sv slist, args = v :: l1 :: lrest →
        expr_to_postgis_sql v pre = .ok sv →
        exprs_to_postgis_sql (l1 :: lrest) pre = .ok slist →
        operation_to_sql op args pre =
          .ok (sv ++ " IN (" ++ rustJoin ", " slist ++ ")"))) := by
  refine ⟨?_, ?_, ?_, ?_⟩
  · intro hmem
    constructor
    · intro hlen
      rcases hmem with h|h|h|h|h|h|h|h|h|h|h|h|h <;>
        (rw [operation_to_sql, h]
         repeat rw [if_neg (by decide)]
         rw [if_pos (by decide)]
         exact ⟨_, binary_op_arity args _ pre hlen⟩)
    · rintro a b sa sb rfl ha hb
      rcases hmem with h|h|h|h|h|h|h|h|h|h|h|h|h <;>
        (rw [operation_to_sql, h]
         repeat rw [if_neg (by decide)]
         rw [if_pos (by decide)]
         exact ⟨_, binary_op_ok a b _ pre sa sb ha hb⟩)
  · intro h
    constructor
    · intro hlen
      rw [operation_to_sql, h]
      repeat rw [if_neg (by decide)]
      rw [if_pos (by decide)]
      exact not_op_arity args pre hlen
    · rintro a sa rfl ha
      rw [operation_to_sql, h]
      repeat rw [if_neg (by decide)]
      rw [if_pos (by decide)]
      exact not_op_ok a pre sa ha
  · intro h
    constructor
    · intro hlen
      rw [operation_to_sql, h]
      repeat rw [if_neg (by decide)]
      rw [if_pos (by decide)]
      exact between_op_arity args pre hlen
    · rintro v lo hi sv slo shi rfl hv hlo hhi
      rw [operation_to_sql, h]
      repeat rw [if_neg (by decide)]
      rw [if_pos (by decide)]
      exact between_op_ok v lo hi pre sv slo shi hv hlo hhi
  · intro h
    constructor
    · intro hlen
      rw [operation_to_sql, h]
      repeat rw [if_neg (by decide)]
      rw [if_pos (by decide)]
      exact in_op_arity args pre hlen
    · rintro v l1 lrest sv slist rfl hv hlist
      rw [operation_to_sql, h]
      repeat rw [if_neg (by decide)]
      rw [if_pos (by decide)]
      exact in_op_ok v l1 lrest pre sv slist hv hlist

/-- Witness for C6: `=` with one child and `BETWEEN` with one child are
compile errors; `=` with two compilable children succeeds. -/
theorem operation_arity_errors_witness :
    (∃ m, operation_to_sql "=" [Cql2Expr.null] "" = .error (.badRequest m))
    ∧ operation_to_sql "between" [Cql2Expr.null] "" =
        .error (.badRequest "BETWEEN requires 3 arguments")
    ∧ (∃ out, operation_to_sql "=" [Cql2Expr.null, Cql2Expr.null] "" = .ok out) := by
  refine And.intro ?_ (And.intro ?_ ?_)
  · exact ((operation_arity_errors "=" "" [.null]).1 (Or.inl rfl)).1 (by decide)
  · exact ((operation_arity_errors "between" "" [.null]).2.2.1 rfl).1 (by decide)
  · exact ((operation_arity_errors "=" "" [.null, .null]).1 (Or.inl rfl)).2
      Cql2Expr.null Cql2Expr.null "NULL" "NULL" rfl
      (by rw [expr_to_postgis_sql]) (by rw [expr_to_postgis_sql])

/-- **C7.** Every spatial binary predicate in the `spatial_mapping` table
(`s_intersects` … `s_equals`) with exactly 2 children compiles to the
1:1-mapped PostGIS function applied to the two compiled children and errors
with `BadRequest` at every other child count; `s_dwithin` compiles to
`ST_DWithin` with exactly 3 children and errors otherwise. -/
theorem spatial_predicate_mapping :
    (∀ cql pg, (cql, pg) ∈ spatial_mapping →
      ∀ (op pre : String) (args : List Cql2Expr), rustToLowercase op = cql →
        (∀ a1 a2 s1 s2, args = [a1, a2] →
          expr_to_postgis_sql a1 pre = .ok s1 → expr_to_postgis_sql a2 pre = .ok s2 →
          operation_to_sql op args pre = .ok (pg ++ "(" ++ s1 ++ ", " ++ s2 ++ ")")) ∧
        (args.length ≠ 2 →
          operation_to_sql op args pre =
            .error (.badRequest (op ++ " requires 2 arguments")))) ∧
    (∀ (op pre : String) (args : List Cql2Expr), rustToLowercase op = "s_dwithin" →
      (∀ g1 g2 d s1 s2 sd, args = [g1, g2, d] →
        expr_to_postgis_sql g1 pre = .ok s1 → expr_to_postgis_sql g2 pre = .ok s2 →
        expr_to_postgis_sql d pre = .ok sd →
        operation_to_sql op args pre =
          .ok ("ST_DWithin(" ++ s1 ++ ", " ++ s2 ++ ", " ++ sd ++ ")")) ∧
      (args.length ≠ 3 →
        operation_to_sql op args pre =
          .error (.badRequest "S_DWITHIN requires 3 arguments"))) := by
  constructor
  · intro cql pg hmem op pre args hlow
    simp only [spatial_mapping, List.mem_cons, List.not_mem_nil, or_false,
      Prod.mk.injEq] at hmem
    rcases hmem with h8 | h8 | h8 | h8 | h8 | h8 | h8 | h8 <;> obtain ⟨rfl, rfl⟩ := h8 <;>
      (constructor
       · rintro a1 a2 s1 s2 rfl h1 h2
         rw [operation_to_sql, hlow]
         repeat rw [if_neg (by decide)]
         rw [if_pos (by decide)]
         exact spatial_call_ok _ op a1 a2 pre s1 s2 h1 h2
       · intro hlen
         rw [operation_to_sql, hlow]
         repeat rw [if_neg (by decide)]
         rw [if_pos (by decide)]
         exact spatial_call_arity _ op args pre hlen)
  · intro op pre args hlow
    constructor
    · rintro g1 g2 d s1 s2 sd rfl h1 h2 hd
      rw [operation_to_sql, hlow]
      repeat rw [if_neg (by decide)]
      rw [if_pos (by decide)]
      exact s_dwithin_op_ok g1 g2 d pre s1 s2 sd h1 h2 hd
    · intro hlen
      rw [operation_to_sql, hlow]
      repeat rw [if_neg (by decide)]
      rw [if_pos (by decide)]
      exact s_dwithin_op_arity args pre hlen

/-- Witness for C7: the spec §8 spatial example, and an arity error. -/
theorem spatial_predicate_mapping_witness :
    operation_to_sql "S_INTERSECTS"
      [.property "geometry", .geometry (.wkt "POLYGON((0 0,1 0,1 1,0 1,0 0))")] "" =
      .ok "ST_Intersects(geometry, ST_GeomFromText('POLYGON((0 0,1 0,1 1,0 1,0 0))', 4326))"
    ∧ operation_to_sql "s_dwithin" [Cql2Expr.null] "" =
      .error (.badRequest "S_DWITHIN requires 3 arguments") := by
  constructor
  · rw [(spatial_predicate_mapping.1 "s_intersects" "ST_Intersects" (by decide)
      "S_INTERSECTS" "" _ rfl).1
      (.property "geometry") (.geometry (.wkt "POLYGON((0 0,1 0,1 1,0 1,0 0))"))
      "geometry" "ST_GeomFromText('POLYGON((0 0,1 0,1 1,0 1,0 0))', 4326)" rfl
      (by rw [expr_property_eq]; rfl) (by rw [expr_geometry_eq]; rfl)]
    rfl
  · exact (spatial_predicate_mapping.2 "s_dwithin" "" [.null] rfl).2 (by decide)


/-! ### Lookup and version-conflict helper lemmas -/

theorem with_found_none {α : Type} (s : DbState) (cid : String)
    (k : Collection → Except AppError α)
    (h : s.collections.find? (fun c => c.canonical_name == cid) = none) :
    with_found s cid k = .error (.notFound ("Collection not found: " ++ cid)) := by
  unfold with_found
  rw [h]

theorem with_found_some {α : Type} (s : DbState) (cid : String)
    (k : Collection → Except AppError α) (c : Collection)
    (h : s.collections.find? (fun x => x.canonical_name == cid) = some c) :
    with_found s cid k = k c := by
  unfold with_found
  rw [h]

theorem version_conflict_self (cur : Int) : version_conflict (some cur) cur = false :=
  bne_self_eq_false cur

theorem version_conflict_none (cur : Int) : version_conflict none cur = false := rfl

theorem version_conflict_of_ne {v cur : Int} (h : v ≠ cur) :
    version_conflict (some v) cur = true :=
  bne_iff_ne.mpr (Ne.symm h)

/-! ### Claims C1, C2, C3 -/

/-- **C1.** Optimistic concurrency for the catalog mutations, for a collection
currently at version `c.version` owned by the caller: supplying the matching
expected version succeeds and yields version `c.version + 1`; supplying any
other expected version fails with `PreconditionFailed`; supplying no
expected version always succeeds regardless of the current version; and
every successful update/replace returns a version exactly one larger than
the current one (so the version never decreases). -/
theorem optimistic_concurrency (s : DbState) (u cid : String) (c : Collection)
    (t d n : Option String) (t2 : String) (d2 : Option String)
    (hfind : get_collection s u cid = some c) (howner : c.owner = u) :
    ((∃ s' c', update_collection s u cid (some c.version) t d n = .ok (s', c') ∧
        c'.version = c.version + 1) ∧
     (∃ s' c', replace_collection s u cid (some c.version) t2 d2 = .ok (s', c') ∧
        c'.version = c.version + 1) ∧
     (∃ s', delete_collection s u cid (some c.version) = .ok s')) ∧
    (∀ v, v ≠ c.version →
      update_collection s u cid (some v) t d n =
        .error (.preconditionFailed "Collection has been modified") ∧
      replace_collection s u cid (some v) t2 d2 =
        .error (.preconditionFailed "Collection has been modified") ∧
      delete_collection s u cid (some v) =
        .error (.preconditionFailed "Collection has been modified")) ∧
    ((∃ s' c', update_collection s u cid none t d n = .ok (s', c') ∧
        c'.version = c.version + 1) ∧
     (∃ s' c', replace_collection s u cid none t2 d2 = .ok (s', c') ∧
        c'.version = c.version + 1) ∧
     (∃ s', delete_collection s u cid none = .ok s')) ∧
    (∀ ev s' c', update_collection s u cid ev t d n = .ok (s', c') →
        c'.version = c.version + 1) ∧
    (∀ ev s' c', replace_collection s u cid ev t2 d2 = .ok (s', c') →
        c'.version = c.version + 1) := by
  have hfind' : s.collections.find? (fun x => x.canonical_name == cid) = some c := hfind
  have hnotne : ¬ c.owner ≠ u := not_ne_iff.mpr howner
  refine ⟨⟨?_, ?_, ?_⟩, ?_, ⟨?_, ?_, ?_⟩, ?_, ?_⟩
  · unfold update_collection
    rw [with_found_some _ _ _ c hfind',
      if_neg (by rw [version_conflict_self]; exact Bool.false_ne_true), if_neg hnotne]
    exact ⟨_, _, rfl, rfl⟩
  · unfold replace_collection
    rw [with_found_some _ _ _ c hfind',
      if_neg (by rw [version_conflict_self]; exact Bool.false_ne_true), if_neg hnotne]
    exact ⟨_, _, rfl, rfl⟩
  · unfold delete_collection
    rw [with_found_some _ _ _ c hfind',
      if_neg (by rw [version_conflict_self]; exact Bool.false_ne_true), if_neg hnotne]
    exact ⟨_, rfl⟩
  · intro v hv
    refine And.intro ?_ (And.intro ?_ ?_)
    · unfold update_collection
      rw [with_found_some _ _ _ c hfind', if_pos (version_conflict_of_ne hv)]
    · unfold replace_collection
      rw [with_found_some _ _ _ c hfind', if_pos (version_conflict_of_ne hv)]
    · unfold delete_collection
      rw [with_found_some _ _ _ c hfind', if_pos (version_conflict_of_ne hv)]
  · unfold update_collection
    rw [with_found_some _ _ _ c hfind',
      if_neg (by rw [version_conflict_none]; exact Bool.false_ne_true), if_neg hnotne]
    exact ⟨_, _, rfl, rfl⟩
  · unfold replace_collection
    rw [with_found_some _ _ _ c hfind',
      if_neg (by rw [version_conflict_none]; exact Bool.false_ne_true), if_neg hnotne]
    exact ⟨_, _, rfl, rfl⟩
  · unfold delete_collection
    rw [with_found_some _ _ _ c hfind',
      if_neg (by rw [version_conflict_none]; exact Bool.false_ne_true), if_neg hnotne]
    exact ⟨_, rfl⟩
  · intro ev s' c' h
    unfold update_collection at h
    rw [with_found_some _ _ _ c hfind'] at h
    by_cases hvc : version_conflict ev c.version = true
    · rw [if_pos hvc] at h
      cases h
    · rw [if_neg hvc, if_neg hnotne] at h
      simp only [Except.ok.injEq, Prod.mk.injEq] at h
      rw [← h.2]
  · intro ev s' c' h
    unfold replace_collection at h
    rw [with_found_some _ _ _ c hfind'] at h
    by_cases hvc : version_conflict ev c.version = true
    · rw [if_pos hvc] at h
      cases h
    · rw [if_neg hvc, if_neg hnotne] at h
      simp only [Except.ok.injEq, Prod.mk.injEq] at h
      rw [← h.2]

/-- Witness for C1 at the sample state: matching version succeeds at 6, stale
version 4 fails with `PreconditionFailed`. -/
theorem optimistic_concurrency_witness :
    (∃ s' c', update_collection sSample "alice" "alice:c" (some 5) none none none =
        .ok (s', c') ∧ c'.version = 6) ∧
    update_collection sSample "alice" "alice:c" (some 4) none none none =
      .error (.preconditionFailed "Collection has been modified") := by
  have h := optimistic_concurrency sSample "alice" "alice:c" cSample
    none none none "t" none rfl rfl
  exact ⟨h.1.1, (h.2.1 4 (by decide)).1⟩

/-- **C2.** The create path validates owner authorization: when the requested
owner is neither the calling principal nor one of the caller's groups, the
handler rejects with `Forbidden` before invoking the service — the error
return carries no successor state, i.e. no catalog row is inserted and no
table is created. -/
theorem create_owner_authorization (s : DbState) (username : String) (groups : List String)
    (request_id o title : String) (description : Option String)
    (collection_type : String) (crs : Int) (fresh_id : Nat)
    (hne : o ≠ username) (hgrp : groups.contains o = false) :
    handler_create_collection s username groups request_id (some o) title description
      collection_type crs fresh_id =
      .error (.forbidden ("Cannot create collection owned by " ++ o)) := by
  unfold handler_create_collection
  simp only [Option.getD_some]
  rw [if_pos ⟨hne, hgrp⟩]

/-- Witness for C2: `alice` (no groups) cannot create a collection owned by
`bob`. -/
theorem create_owner_authorization_witness :
    handler_create_collection sSample "alice" [] "c2" (some "bob") "T" none "vector" 4326 2 =
      .error (.forbidden "Cannot create collection owned by bob") :=
  create_owner_authorization sSample "alice" [] "c2" "bob" "T" none "vector" 4326 2
    (by decide) (by decide)

/-- **C3.** Fixed check order existence → version (if supplied) → ownership
for update, replace and delete: a missing collection yields `NotFound`
whatever else is wrong; a supplied stale version yields `PreconditionFailed`
even when the caller is not the owner (the tie-break rule); with no version
conflict, a non-owner caller yields `Forbidden`. -/
theorem mutation_check_order (s : DbState) (u cid : String) (ev : Option Int)
    (t d n : Option String) (t2 : String) (d2 : Option String) :
    (get_collection s u cid = none →
      update_collection s u cid ev t d n =
        .error (.notFound ("Collection not found: " ++ cid)) ∧
      replace_collection s u cid ev t2 d2 =
        .error (.notFound ("Collection not found: " ++ cid)) ∧
      delete_collection s u cid ev =
        .error (.notFound ("Collection not found: " ++ cid))) ∧
    (∀ c v, get_collection s u cid = some c → ev = some v → v ≠ c.version →
      update_collection s u cid ev t d n =
        .error (.preconditionFailed "Collection has been modified") ∧
      replace_collection s u cid ev t2 d2 =
        .error (.preconditionFailed "Collection has been modified") ∧
      delete_collection s u cid ev =
        .error (.preconditionFailed "Collection has been modified")) ∧
    (∀ c, get_collection s u cid = some c → version_conflict ev c.version = false →
      c.owner ≠ u →
      update_collection s u cid ev t d n =
        .error (.forbidden "Only owner can update collection") ∧
      replace_collection s u cid ev t2 d2 =
        .error (.forbidden "Only owner can update collection") ∧
      delete_collection s u cid ev =
        .error (.forbidden "Only owner can delete collection")) := by
  refine And.intro ?_ (And.intro ?_ ?_)
  · intro hnone
    have hnone' : s.collections.find? (fun x => x.canonical_name == cid) = none := hnone
    refine And.intro ?_ (And.intro ?_ ?_)
    · unfold update_collection
      rw [with_found_none _ _ _ hnone']
    · unfold replace_collection
      rw [with_found_none _ _ _ hnone']
    · unfold delete_collection
      rw [with_found_none _ _ _ hnone']
  · intro c v hfind hev hv
    subst hev
    have hfind' : s.collections.find? (fun x => x.canonical_name == cid) = some c := hfind
    refine And.intro ?_ (And.intro ?_ ?_)
    · unfold update_collection
      rw [with_found_some _ _ _ c hfind', if_pos (version_conflict_of_ne hv)]
    · unfold replace_collection
      rw [with_found_some _ _ _ c hfind', if_pos (version_conflict_of_ne hv)]
    · unfold delete_collection
      rw [with_found_some _ _ _ c hfind', if_pos (version_conflict_of_ne hv)]
  · intro c hfind hvc hown
    have hfind' : s.collections.find? (fun x => x.canonical_name == cid) = some c := hfind
    have hvc' : ¬ version_conflict ev c.version = true := by rw [hvc]; exact Bool.false_ne_true
    refine And.intro ?_ (And.intro ?_ ?_)
    · unfold update_collection
      rw [with_found_some _ _ _ c hfind', if_neg hvc', if_pos hown]
    · unfold replace_collection
      rw [with_found_some _ _ _ c hfind', if_neg hvc', if_pos hown]
    · unfold delete_collection
      rw [with_found_some _ _ _ c hfind', if_neg hvc', if_pos hown]

/-- Witness for C3: against the sample state, caller `mallory` with stale
version 4 gets `PreconditionFailed`, not `Forbidden`; with the current
version supplied, `mallory` gets `Forbidden`. -/
theorem mutation_check_order_witness :
    update_collection sSample "mallory" "alice:c" (some 4) none none none =
      .error (.preconditionFailed "Collection has been modified") ∧
    update_collection sSample "mallory" "alice:c" (some 5) none none none =
      .error (.forbidden "Only owner can update collection") := by
  constructor
  · exact ((mutation_check_order sSample "mallory" "alice:c" (some 4)
      none none none "t" none).2.1 cSample 4 rfl rfl (by decide)).1
  · exact ((mutation_check_order sSample "mallory" "alice:c" (some 5)
      none none none "t" none).2.2 cSample rfl (by decide) (by decide)).1


/-! ### Claims C9 and C10 -/

theorem mem_dedupGo (x : String) :
    ∀ (l seen : List String), x ∈ dedupGo seen l ↔ (x ∈ l ∧ x ∉ seen) := by
  intro l
  induction l with
  | nil => intro seen; simp [dedupGo]
  | cons y ys ih =>
    intro seen
    unfold dedupGo
    by_cases hsy : seen.contains y = true
    · have hy : y ∈ seen := by simpa using hsy
      rw [if_pos hsy, ih]
      constructor
      · rintro ⟨hmem, hnot⟩
        exact ⟨List.mem_cons_of_mem y hmem, hnot⟩
      · rintro ⟨hmem, hnot⟩
        rcases List.mem_cons.mp hmem with rfl | hmem'
        · exact absurd hy hnot
        · exact ⟨hmem', hnot⟩
    · have hy : y ∉ seen := by simpa using hsy
      rw [if_neg hsy]
      constructor
      · intro hmem
        rcases List.mem_cons.mp hmem with rfl | hmem'
        · exact ⟨List.mem_cons_self x ys, hy⟩
        · obtain ⟨h1, h2⟩ := (ih (seen ++ [y])).mp hmem'
          exact ⟨List.mem_cons_of_mem y h1, fun hx => h2 (List.mem_append_left _ hx)⟩
      · rintro ⟨hmem, hnot⟩
        rcases List.mem_cons.mp hmem with rfl | hmem'
        · exact List.mem_cons_self x _
        · by_cases hxy : x = y
          · subst hxy
            exact List.mem_cons_self x _
          · refine List.mem_cons_of_mem y ((ih (seen ++ [y])).mpr ⟨hmem', ?_⟩)
            intro hx
            rcases List.mem_append.mp hx with h1 | h2
            · exact hnot h1
            · exact hxy (by simpa using h2)

theorem mem_dedupFirst (l : List String) (x : String) : x ∈ dedupFirst l ↔ x ∈ l := by
  unfold dedupFirst
  rw [mem_dedupGo]
  simp

/-- **C9.** Listing shares returns, for every grantee appearing in the live
grants on the collection's schema/table — the collection owner and the
`PUBLIC` role excluded — a share entry whose permission is `write` iff any
of the grantee's INSERT/UPDATE/DELETE privileges is present (else `read`),
and whose principal type is `"group"` iff the grantee has any role-membership
edge recorded (else `"user"`). -/
theorem list_shares_classification (s : DbState) (u cid : String) (c : Collection)
    (shares : List ShareEntry)
    (hfind : get_collection s u cid = some c)
    (hok : list_shares s u cid = .ok shares) :
    ∀ g, g ∈ (s.grants.filter (fun gr =>
        gr.schema == c.schema_name && gr.table == c.table_name &&
        gr.grantee != c.owner && gr.grantee != "PUBLIC")).map (fun gr => gr.grantee) →
      ∃ e, e ∈ shares ∧ e.principal = g ∧
        e.permission = (if ((s.grants.filter (fun gr =>
              gr.schema == c.schema_name && gr.table == c.table_name &&
              gr.grantee != c.owner && gr.grantee != "PUBLIC")).filter
                (fun gr => gr.grantee == g)).map (fun gr => gr.privilege)
              |>.any (fun p => p == "INSERT" || p == "UPDATE" || p == "DELETE")
          then PermissionLevel.write else PermissionLevel.read) ∧
        e.principal_type = (if s.memberships.any (fun m => m.2 == g) then "group"
          else "user") := by
  have hfind' : s.collections.find? (fun x => x.canonical_name == cid) = some c := hfind
  unfold list_shares at hok
  rw [with_found_some _ _ _ c hfind'] at hok
  by_cases hown : c.owner ≠ u
  · rw [if_pos hown] at hok
    cases hok
  · rw [if_neg hown] at hok
    simp only [Except.ok.injEq] at hok
    subst hok
    intro g hg
    refine ⟨_, List.mem_map_of_mem _ ((mem_dedupFirst _ g).mpr hg), rfl, rfl, rfl⟩

/-- Witness for C9: owner `alice` lists shares on a state where `bob` holds
SELECT+INSERT (a user) and `team` holds SELECT (a role with a member). -/
theorem list_shares_classification_witness :
    ∃ e, e ∈ [ShareEntry.mk "bob" "user" PermissionLevel.write,
              ShareEntry.mk "team" "group" PermissionLevel.read] ∧
      e.principal = "bob" ∧
      e.permission = PermissionLevel.write ∧ e.principal_type = "user" := by
  have h := list_shares_classification
    { collections := [cSample], aliases := [], tables := [("alice", "c")],
      roles := ["alice", "bob", "team"], schemaGrants := [],
      grants := [⟨"alice", "c", "bob", "SELECT"⟩, ⟨"alice", "c", "bob", "INSERT"⟩,
                 ⟨"alice", "c", "team", "SELECT"⟩],
      memberships := [("dave", "team")] }
    "alice" "alice:c" cSample
    [ShareEntry.mk "bob" "user" PermissionLevel.write,
     ShareEntry.mk "team" "group" PermissionLevel.read]
    rfl rfl "bob" (by decide)
  obtain ⟨e, hmem, hp, hperm, htype⟩ := h
  exact ⟨e, hmem, hp, by rw [hperm]; decide, by rw [htype]; decide⟩

/-- **C10.** For each sharing operation (list, add, remove): a missing
collection yields `NotFound` (checked first); an existing collection with a
non-owner caller yields `Forbidden`.  An error return carries no successor
state, so no privilege is granted or revoked. -/
theorem sharing_owner_enforcement (s : DbState) (u cid principal ptype : String)
    (perm : PermissionLevel) :
    (get_collection s u cid = none →
      list_shares s u cid = .error (.notFound ("Collection not found: " ++ cid)) ∧
      add_share s u cid principal ptype perm =
        .error (.notFound ("Collection not found: " ++ cid)) ∧
      remove_share s u cid principal =
        .error (.notFound ("Collection not found: " ++ cid))) ∧
    (∀ c, get_collection s u cid = some c → c.owner ≠ u →
      list_shares s u cid = .error (.forbidden "Only owner can view sharing settings") ∧
      add_share s u cid principal ptype perm =
        .error (.forbidden "Only owner can manage sharing") ∧
      remove_share s u cid principal =
        .error (.forbidden "Only owner can manage sharing")) := by
  constructor
  · intro hnone
    have hnone' : s.collections.find? (fun x => x.canonical_name == cid) = none := hnone
    refine And.intro ?_ (And.intro ?_ ?_)
    · unfold list_shares
      rw [with_found_none _ _ _ hnone']
    · unfold add_share
      rw [with_found_none _ _ _ hnone']
    · unfold remove_share
      rw [with_found_none _ _ _ hnone']
  · intro c hfind hown
    have hfind' : s.collections.find? (fun x => x.canonical_name == cid) = some c := hfind
    refine And.intro ?_ (And.intro ?_ ?_)
    · unfold list_shares
      rw [with_found_some _ _ _ c hfind', if_pos hown]
    · unfold add_share
      rw [with_found_some _ _ _ c hfind', if_pos hown]
    · unfold remove_share
      rw [with_found_some _ _ _ c hfind', if_pos hown]

/-- Witness for C10: `mallory` cannot list or mutate shares of `alice:c`, and
an unknown collection reports `NotFound`. -/
theorem sharing_owner_enforcement_witness :
    add_share sSample "mallory" "alice:c" "bob" "user" PermissionLevel.read =
      .error (.forbidden "Only owner can manage sharing") ∧
    list_shares sSample "alice" "nope" =
      .error (.notFound "Collection not found: nope") := by
  constructor
  · exact ((sharing_owner_enforcement sSample "mallory" "alice:c" "bob" "user"
      PermissionLevel.read).2 cSample rfl (by decide)).2.1
  · exact ((sharing_owner_enforcement sSample "alice" "nope" "bob" "user"
      PermissionLevel.read).1 rfl).1



/-! ### Claim C8 -/

theorem find?_map_rename (l : List Collection) (c0 updated : Collection) (new : String)
    (hmem : c0 ∈ l)
    (hfree : ∀ c ∈ l, c.canonical_name ≠ new)
    (hname : updated.canonical_name = new) :
    (l.map (fun c => if c.id == c0.id then updated else c)).find?
      (fun c => c.canonical_name == new) = some updated := by
  induction l with
  | nil => cases hmem
  | cons a rest ih =>
    rw [List.map_cons]
    by_cases hid : (a.id == c0.id) = true
    · rw [if_pos hid]
      exact List.find?_cons_of_pos _ (by simp [hname])
    · rw [if_neg hid]
      rw [List.find?_cons_of_neg _ (by simp [hfree a (List.mem_cons_self a rest)])]
      apply ih
      rcases List.mem_cons.mp hmem with rfl | hmem'
      · exact absurd (by simp) hid
      · exact hmem'
      · exact fun c hc => hfree c (List.mem_cons_of_mem a hc)

theorem find?_map_rename_none (l : List Collection) (c0 updated : Collection) (old : String)
    (huniq : ∀ c ∈ l, c.canonical_name = old → c.id = c0.id)
    (hname : updated.canonical_name ≠ old) :
    (l.map (fun c => if c.id == c0.id then updated else c)).find?
      (fun c => c.canonical_name == old) = none := by
  rw [List.find?_eq_none]
  intro x hx
  rw [List.mem_map] at hx
  obtain ⟨c, hc, rfl⟩ := hx
  by_cases hid : (c.id == c0.id) = true
  · rw [if_pos hid]
    simp [hname]
  · rw [if_neg hid]
    simp only [beq_iff_eq]
    intro heq
    exact hid (by simp [huniq c hc heq])

/-- **C8.** Renaming a collection (update with a supplied new name, distinct
from the old one) records an alias `(old, new)`; afterwards reading the new
name returns the renamed collection with its original resource id, reading
the old name fails, and — if a new collection is subsequently created under
the old name with a fresh id — reading the old name returns that new,
unrelated collection, never the renamed one.  The hypotheses `hfree` and
`huniq` express the active-name uniqueness invariant of the catalog (its
database unique constraint lives in a migration outside `src/`). -/
theorem rename_alias_semantics (s : DbState) (u u2 u3 old new : String)
    (ev : Option Int) (t d : Option String) (c0 : Collection) (s' : DbState) (c' : Collection)
    (hfind : get_collection s u old = some c0)
    (hupd : update_collection s u old ev t d (some new) = .ok (s', c'))
    (hne : new ≠ old)
    (hfree : ∀ c ∈ s.collections, c.canonical_name ≠ new)
    (huniq : ∀ c ∈ s.collections, c.canonical_name = old → c.id = c0.id) :
    (old, new) ∈ s'.aliases ∧
    get_collection s' u2 new = some c' ∧ c'.id = c0.id ∧
    get_collection s' u2 old = none ∧
    (∀ (owner2 title2 : String) (desc2 : Option String) (ctype2 : String) (crs2 : Int)
        (fid : Nat) (s'' : DbState) (cnew : Collection),
      create_collection s' u3 old owner2 title2 desc2 ctype2 crs2 fid = .ok (s'', cnew) →
      fid ≠ c0.id →
      get_collection s'' u3 old = some cnew ∧ cnew.id ≠ c0.id) := by
  have hfind' : s.collections.find? (fun x => x.canonical_name == old) = some c0 := hfind
  have hmem : c0 ∈ s.collections := List.mem_of_find?_eq_some hfind'
  unfold update_collection at hupd
  rw [with_found_some _ _ _ c0 hfind'] at hupd
  by_cases hvc : version_conflict ev c0.version = true
  · rw [if_pos hvc] at hupd
    cases hupd
  rw [if_neg hvc] at hupd
  by_cases hown : c0.owner ≠ u
  · rw [if_pos hown] at hupd
    cases hupd
  rw [if_neg hown] at hupd
  simp only [Except.ok.injEq, Prod.mk.injEq] at hupd
  obtain ⟨hS, hC⟩ := hupd
  have hname' : c'.canonical_name = new := by rw [← hC]
  have hid' : c'.id = c0.id := by rw [← hC]
  have hnameold : c'.canonical_name ≠ old := by rw [hname']; exact hne
  rw [hC] at hS
  subst hS
  have hgone : (s.collections.map (fun c => if c.id == c0.id then c' else c)).find?
      (fun c => c.canonical_name == old) = none :=
    find?_map_rename_none s.collections c0 c' old huniq hnameold
  refine ⟨by simp, ?_, hid', hgone, ?_⟩
  · unfold get_collection
    exact find?_map_rename s.collections c0 c' new hmem hfree hname'
  · intro owner2 title2 desc2 ctype2 crs2 fid s'' cnew hcreate hfid
    unfold create_collection at hcreate
    split at hcreate
    · cases hcreate
    rename_i s1 heq1
    split at hcreate
    · cases hcreate
    rename_i schema_name restParts heq2
    split at hcreate
    · cases hcreate
    split at hcreate
    · cases hcreate
    split at hcreate
    · cases hcreate
    simp only [Except.ok.injEq, Prod.mk.injEq] at hcreate
    obtain ⟨hS2, hC2⟩ := hcreate
    subst hS2
    subst hC2
    have hs1 : s1.collections =
        s.collections.map (fun c => if c.id == c0.id then c' else c) := by
      unfold ensure_user_role at heq1
      split at heq1
      · cases heq1
      · simp only [Except.ok.injEq] at heq1
        rw [← heq1]
    constructor
    · unfold get_collection
      simp only
      rw [hs1, List.find?_append, hgone]
      simp
    · simpa using hfid


/-- Witness for C8: renaming `alice:c` to `alice:d` on the sample state, then
creating a fresh collection back under `alice:c`. -/
theorem rename_alias_semantics_witness :
    ∃ s' c', update_collection sSample "alice" "alice:c" none none none (some "alice:d") =
        .ok (s', c') ∧
      ("alice:c", "alice:d") ∈ s'.aliases ∧
      get_collection s' "alice" "alice:d" = some c' ∧ c'.id = cSample.id ∧
      get_collection s' "alice" "alice:c" = none ∧
      ∃ s'' cnew, create_collection s' "alice" "alice:c" "alice" "T2" none "raster" 4326 99 =
          .ok (s'', cnew) ∧
        get_collection s'' "alice" "alice:c" = some cnew ∧ cnew.id ≠ cSample.id := by
  have h := rename_alias_semantics sSample "alice" "alice" "alice" "alice:c" "alice:d"
    none none none cSample _ _ rfl rfl (by decide) (by decide) (by decide)
  have hc := h.2.2.2.2 "alice" "T2" none "raster" 4326 99 _ _ rfl (by decide)
  exact ⟨_, _, rfl, h.1, h.2.1, h.2.2.1, h.2.2.2.1, _, _, rfl, hc.1, by simpa using hc.2⟩

end SpatialVault
